import Mathlib

/-!
Verification of the devtales backend: a shallow embedding of the story/user/OTP
data model and handlers, followed by theorems about the behaviour each handler
exhibits. Documents are Lean structures; the Mongo collections are lists of
documents; each Express handler becomes a pure function from the store (plus
request data) to an HTTP-level outcome and the updated store.
-/

namespace DevTales

/-- HTTP-level outcome of a handler, abstracting the status codes used in the
source: `ok` covers the 200/201/204 success responses, the rest are the error
statuses 400, 403, 404. -/
inductive Resp where
  | ok : Resp
  | badRequest : Resp
  | forbidden : Resp
  | notFound : Resp
deriving DecidableEq, Repr

/-- An embedded comment subdocument of a story (`storySchema.comments`):
`userId` is the local Mongo user `_id`, `username` a denormalized snapshot. -/
structure Comment where
  id : Nat
  userId : Nat
  username : String
  content : String
  createdAt : Nat
deriving DecidableEq, Repr

/-- A `Story` document of the main server (`storySchema`). `likes` and
`bookmarks` hold raw Clerk identity-provider ids (strings); `authorId` is the
local Mongo user `_id`. -/
structure Story where
  id : Nat
  title : String
  content : String
  category : String
  authorId : Nat
  author : String
  authorImage : String
  imageUrl : Option String
  audioUrl : Option String
  videoUrl : Option String
  likes : List String
  bookmarks : List String
  comments : List Comment
  createdAt : Nat
  updatedAt : Nat
deriving DecidableEq, Repr

/-- A local `User` document (`userSchema`): `clerkId` is the identity-provider
id, `id` the Mongo `_id`. -/
structure User where
  id : Nat
  clerkId : String
  username : String
  email : Option String
  imageUrl : Option String
  bio : String
  createdAt : Nat
  updatedAt : Nat
deriving DecidableEq, Repr

/-- The provider-side profile returned by `Clerk.users.getUser`: nullable
username and name parts, first email address, avatar URL. -/
structure ClerkUser where
  id : String
  username : Option String
  firstName : Option String
  lastName : Option String
  emailAddress : Option String
  imageUrl : Option String
deriving DecidableEq, Repr

/-- JavaScript string truthiness: the empty string is the only falsy string. -/
def jsTruthy (s : String) : Bool := s ≠ ""

/-- JavaScript `a || b` for two strings. -/
def jsOrStr (a b : String) : String := if jsTruthy a then a else b

/-- JavaScript `a || b` where `a` is a possibly-absent (null/undefined) string
field: both `null` and `""` are falsy. -/
def jsOrOpt (a : Option String) (b : String) : String := jsOrStr (a.getD "") b

/-- JavaScript string coercion of a nullable string inside a `+` concatenation:
a missing provider field renders as the literal string `"null"`. -/
def jsToString (a : Option String) : String := a.getD "null"

/-- The display-name expression in `syncUser` for a new user:
`clerkUser.username || clerkUser.firstName + ' ' + clerkUser.lastName ||
`user_${clerkUser.id}``, with JavaScript precedence (`+` binds tighter than
`||`). -/
def deriveUsername (username firstName lastName : Option String)
    (clerkId : String) : String :=
  jsOrOpt username
    (jsOrStr (jsToString firstName ++ " " ++ jsToString lastName)
      ("user_" ++ clerkId))

/-- The `User` document created by `syncUser` when no local user exists for the
verified identity (`new User({...})` followed by `save`). `newId` stands for
the generated Mongo `_id`, `now` for the creation instant. -/
def mkSyncedUser (c : ClerkUser) (newId : Nat) (now : Nat) : User :=
  { id := newId
    clerkId := c.id
    username := deriveUsername c.username c.firstName c.lastName c.id
    email := c.emailAddress
    imageUrl := c.imageUrl
    bio := ""
    createdAt := now
    updatedAt := now }

/-- `Story.findById`: the first story in the collection with the given `_id`
(Mongo `_id`s are unique, so at most one matches). -/
def findStory (db : List Story) (id : Nat) : Option Story :=
  db.find? (fun s => s.id == id)

/-- `story.save()`: persist the modified document back into the collection,
replacing the stored document with the same `_id`. -/
def saveStory (db : List Story) (s : Story) : List Story :=
  db.map (fun t => if t.id == s.id then s else t)

/-- The like/bookmark flip shared by the two toggle handlers:
`indexOf` the caller id; if found (`> -1`), `splice` it out at that index,
else `push` it at the end. -/
def toggleMember (l : List String) (u : String) : List String :=
  let idx := l.indexOf u
  if idx < l.length then l.eraseIdx idx else l ++ [u]

/-- The story mutation of `POST /api/stories/:id/like`. -/
def likeStory (story : Story) (clerkUserId : String) : Story :=
  { story with likes := toggleMember story.likes clerkUserId }

/-- The story mutation of `POST /api/stories/:id/bookmark`. -/
def bookmarkStory (story : Story) (clerkUserId : String) : Story :=
  { story with bookmarks := toggleMember story.bookmarks clerkUserId }

/-- Handler of `POST /api/stories/:id/like`: 404 when the story does not
resolve, else flip the caller's id in `likes` and save. -/
def likeHandler (db : List Story) (id : Nat) (clerkUserId : String) :
    Resp × List Story :=
  match findStory db id with
  | none => (Resp.notFound, db)
  | some story => (Resp.ok, saveStory db (likeStory story clerkUserId))

/-- Handler of `POST /api/stories/:id/bookmark`: 404 when the story does not
resolve, else flip the caller's id in `bookmarks` and save. -/
def bookmarkHandler (db : List Story) (id : Nat) (clerkUserId : String) :
    Resp × List Story :=
  match findStory db id with
  | none => (Resp.notFound, db)
  | some story => (Resp.ok, saveStory db (bookmarkStory story clerkUserId))

/-- `fresh || old` for a media URL: a freshly uploaded URL replaces the stored
one, otherwise the stored one is kept (`if (req.files && req.files.image)`). -/
def overrideUrl (fresh old : Option String) : Option String :=
  match fresh with
  | some u => some u
  | none => old

/-- Handler of `PUT /api/stories/:id`: 404 when the story does not resolve,
403 when the caller's local `_id` differs from `story.authorId`; otherwise
truthy supplied fields overwrite (`title || story.title`), fresh uploads
replace media URLs, and `updatedAt` is refreshed. -/
def updateStoryHandler (db : List Story) (id : Nat) (callerUserId : Nat)
    (title content category : Option String)
    (newImageUrl newAudioUrl newVideoUrl : Option String) (now : Nat) :
    Resp × List Story :=
  match findStory db id with
  | none => (Resp.notFound, db)
  | some story =>
    if story.authorId == callerUserId then
      (Resp.ok, saveStory db { story with
        title := jsOrOpt title story.title
        content := jsOrOpt content story.content
        category := jsOrOpt category story.category
        imageUrl := overrideUrl newImageUrl story.imageUrl
        audioUrl := overrideUrl newAudioUrl story.audioUrl
        videoUrl := overrideUrl newVideoUrl story.videoUrl
        updatedAt := now })
    else (Resp.forbidden, db)

/-- Handler of `DELETE /api/stories/:id`: 404 when the story does not resolve,
403 when the caller is not the owning author, else `findByIdAndDelete`. -/
def deleteStoryHandler (db : List Story) (id : Nat) (callerUserId : Nat) :
    Resp × List Story :=
  match findStory db id with
  | none => (Resp.notFound, db)
  | some story =>
    if story.authorId == callerUserId then
      (Resp.ok, db.filter (fun t => ¬ t.id == id))
    else (Resp.forbidden, db)

/-- Handler of `POST /api/stories/:id/comment`: 400 on empty content, 404 when
the story does not resolve, else push a comment carrying the caller's local
`_id` and denormalized name. `newCommentId` stands for the generated
subdocument `_id`. -/
def addCommentHandler (db : List Story) (id : Nat) (callerUserId : Nat)
    (callerName : String) (content : String) (newCommentId : Nat) (now : Nat) :
    Resp × List Story :=
  if content = "" then (Resp.badRequest, db)
  else
    match findStory db id with
    | none => (Resp.notFound, db)
    | some story =>
      (Resp.ok, saveStory db { story with comments := story.comments ++
        [{ id := newCommentId
           userId := callerUserId
           username := callerName
           content := content
           createdAt := now }] })

/-- Handler of `DELETE /api/stories/:storyId/comment/:commentId`: 404 when the
story or the comment does not resolve, 403 when the caller's local `_id`
differs from the comment's `userId`, else `comments.pull(commentId)`. -/
def deleteCommentHandler (db : List Story) (storyId commentId : Nat)
    (callerUserId : Nat) : Resp × List Story :=
  match findStory db storyId with
  | none => (Resp.notFound, db)
  | some story =>
    match story.comments.find? (fun c => c.id == commentId) with
    | none => (Resp.notFound, db)
    | some comment =>
      if comment.userId == callerUserId then
        (Resp.ok, saveStory db { story with
          comments := story.comments.filter (fun c => ¬ c.id == commentId) })
      else (Resp.forbidden, db)

/-- Handler of `POST /api/stories`: 400 when title, content or category is
missing, else insert a new story owned by the caller with empty likes,
bookmarks and comments. -/
def createStoryHandler (db : List Story) (caller : User)
    (title content category : String)
    (imageUrl audioUrl videoUrl : Option String) (newId : Nat) (now : Nat) :
    Resp × List Story :=
  if title = "" ∨ content = "" ∨ category = "" then (Resp.badRequest, db)
  else
    (Resp.ok, db ++ [{
      id := newId
      title := title
      content := content
      category := category
      authorId := caller.id
      author := caller.username
      authorImage := caller.imageUrl.getD ""
      imageUrl := imageUrl
      audioUrl := audioUrl
      videoUrl := videoUrl
      likes := []
      bookmarks := []
      comments := []
      createdAt := now
      updatedAt := now }])

/-- The whole persistent store of the main server: the `User` and `Story`
collections. -/
structure DB where
  users : List User
  stories : List Story
deriving DecidableEq, Repr

/-- The `$or` match of the cascade `updateMany` in `DELETE /api/users/:clerkId`:
the story carries the user's identity-id in likes or bookmarks, or a comment
with the user's local `_id`. -/
def storyMentionsUser (clerkId : String) (localId : Nat) (s : Story) : Bool :=
  s.likes.contains clerkId || s.bookmarks.contains clerkId ||
    s.comments.any (fun c => c.userId == localId)

/-- The `$pull` update of the cascade: strip the identity-id from likes and
bookmarks and drop the comments authored by the local user id. -/
def purgeUserFromStory (clerkId : String) (localId : Nat) (s : Story) : Story :=
  { s with
    likes := s.likes.filter (fun x => ¬ x == clerkId)
    bookmarks := s.bookmarks.filter (fun x => ¬ x == clerkId)
    comments := s.comments.filter (fun c => ¬ c.userId == localId) }

/-- Handler of `DELETE /api/users/:clerkId`: 403 unless the caller deletes
their own profile, 404 when no local user has that identity-id; else delete
every story the user authored (`deleteMany`), purge the user's engagement from
the matching stories (`updateMany` + `$pull`), and delete the local user
document (`findOneAndDelete` removes the first match). -/
def deleteUserHandler (db : DB) (clerkIdParam : String) (caller : User) :
    Resp × DB :=
  if caller.clerkId == clerkIdParam then
    match db.users.find? (fun u => u.clerkId == clerkIdParam) with
    | none => (Resp.notFound, db)
    | some user =>
      let stories1 := db.stories.filter (fun s => ¬ s.authorId == user.id)
      let stories2 := stories1.map (fun s =>
        if storyMentionsUser clerkIdParam user.id s then
          purgeUserFromStory clerkIdParam user.id s
        else s)
      (Resp.ok,
        { users := db.users.eraseP (fun u => u.clerkId == clerkIdParam)
          stories := stories2 })
  else (Resp.forbidden, db)

/-- The read-time author resolution shared by the list endpoints of the main
server (`populate` + the `formattedStories` map): live author name and avatar
from the `User` collection with the literal fallback `"Unknown"` / `""`, and
each comment's username resolved the same way. -/
def resolveStory (users : List User) (s : Story) : Story :=
  { s with
    author := match users.find? (fun u => u.id == s.authorId) with
      | some u => u.username
      | none => "Unknown"
    authorImage := match users.find? (fun u => u.id == s.authorId) with
      | some u => u.imageUrl.getD ""
      | none => ""
    comments := s.comments.map (fun c =>
      { c with username := match users.find? (fun u => u.id == c.userId) with
          | some u => u.username
          | none => "Unknown" }) }

/-- Handler of `GET /api/stories` on the main server: all stories sorted by
`createdAt` descending (`.sort({ createdAt: -1 })`), then author-resolved. -/
def getAllStoriesHandler (users : List User) (stories : List Story) :
    List Story :=
  (stories.insertionSort (fun a b => b.createdAt ≤ a.createdAt)).map
    (resolveStory users)

/-- A story document of the secondary route set (`src/models/Story.js`). -/
structure StoryB where
  title : String
  content : String
  imageUrl : String
  category : String
  author : String
  createdAt : Nat
deriving DecidableEq, Repr

/-- Handler of `GET /` in `src/routes/stories.js`: `Story.find()` with no
sort — the stored collection is returned in store order. -/
def getAllStoriesSecondary (db : List StoryB) : List StoryB := db

/-- A live OTP entry of the mail server: the 6-digit code and its expiry
instant (`Date.now() + 5 * 60 * 1000`). -/
structure OtpEntry where
  otp : String
  expires : Nat
deriving DecidableEq, Repr

/-- The in-memory `otpStore` map, keyed by email. -/
abbrev OtpStore := List (String × OtpEntry)

/-- `otpStore.get(email)`. -/
def otpGet (m : OtpStore) (email : String) : Option OtpEntry := m.lookup email

/-- `otpStore.set(email, entry)`: one live entry per email, a new entry
replaces any previous one for the same email. -/
def otpSet (m : OtpStore) (email : String) (e : OtpEntry) : OtpStore :=
  (email, e) :: m.filter (fun p => ¬ p.1 == email)

/-- `otpStore.delete(email)`. -/
def otpDelete (m : OtpStore) (email : String) : OtpStore :=
  m.filter (fun p => ¬ p.1 == email)

/-- The store effect of `POST /send-otp`: store the generated code against the
email with a 5-minute expiry, overwriting any prior live code. -/
def sendOtp (m : OtpStore) (email otp : String) (now : Nat) : OtpStore :=
  otpSet m email { otp := otp, expires := now + 5 * 60 * 1000 }

/-- Outcome of `POST /verify-otp`: success, or one of the three 400 reasons
(`No OTP found for this email`, `OTP expired`, `Invalid OTP`). -/
inductive VerifyResult where
  | success : VerifyResult
  | noOtpFound : VerifyResult
  | expired : VerifyResult
  | invalidOtp : VerifyResult
deriving DecidableEq, Repr

/-- Handler of `POST /verify-otp`: fail when no entry exists; when
`Date.now() > stored.expires`, delete the entry and fail as expired; when the
code matches, delete the entry and succeed; otherwise fail as invalid leaving
the entry in place. -/
def verifyOtp (m : OtpStore) (email otp : String) (now : Nat) :
    VerifyResult × OtpStore :=
  match otpGet m email with
  | none => (VerifyResult.noOtpFound, m)
  | some stored =>
    if stored.expires < now then (VerifyResult.expired, otpDelete m email)
    else if stored.otp == otp then (VerifyResult.success, otpDelete m email)
    else (VerifyResult.invalidOtp, m)

/-! ### Example documents used by the concrete witnesses -/

/-- A concrete story used by witnesses. -/
def storyEx : Story :=
  { id := 1
    title := "T"
    content := "C"
    category := "Myth"
    authorId := 7
    author := "nemis"
    authorImage := ""
    imageUrl := none
    audioUrl := none
    videoUrl := none
    likes := ["u1"]
    bookmarks := []
    comments := [{ id := 3, userId := 7, username := "nemis",
                   content := "hi", createdAt := 5 }]
    createdAt := 10
    updatedAt := 10 }

/-- A concrete user used by witnesses: the author of `storyEx`. -/
def userEx : User :=
  { id := 7
    clerkId := "u1"
    username := "nemis"
    email := none
    imageUrl := none
    bio := ""
    createdAt := 0
    updatedAt := 0 }

/-- A concrete story collection used by witnesses. -/
def dbEx : List Story := [storyEx]

/-- A concrete whole store used by witnesses. -/
def dbuEx : DB := { users := [userEx], stories := [storyEx] }

/-! ### Helper lemmas about the toggle flip -/

theorem toggleMember_of_mem {l : List String} {u : String} (h : u ∈ l) :
    toggleMember l u = l.erase u := by
  simp only [toggleMember]
  rw [if_pos (List.indexOf_lt_length.mpr h)]
  exact List.eraseIdx_indexOf_eq_erase u l

theorem toggleMember_of_not_mem {l : List String} {u : String} (h : u ∉ l) :
    toggleMember l u = l ++ [u] := by
  simp only [toggleMember]
  rw [if_neg]
  rw [List.indexOf_eq_length.mpr h]
  exact lt_irrefl _

theorem self_mem_toggleMember_iff {l : List String} (hn : l.Nodup)
    (u : String) : u ∈ toggleMember l u ↔ u ∉ l := by
  by_cases h : u ∈ l
  · rw [toggleMember_of_mem h]
    simp [h, hn.not_mem_erase]
  · rw [toggleMember_of_not_mem h]
    simp [h]

theorem ne_mem_toggleMember_iff {l : List String} {u v : String}
    (hvu : v ≠ u) : v ∈ toggleMember l u ↔ v ∈ l := by
  by_cases h : u ∈ l
  · rw [toggleMember_of_mem h]
    exact List.mem_erase_of_ne hvu
  · rw [toggleMember_of_not_mem h]
    simp [hvu]

theorem toggleMember_toggleMember_mem {l : List String} (hn : l.Nodup)
    (u v : String) : v ∈ toggleMember (toggleMember l u) u ↔ v ∈ l := by
  by_cases h : u ∈ l
  · rw [toggleMember_of_mem h]
    have h2 : u ∉ l.erase u := hn.not_mem_erase
    rw [toggleMember_of_not_mem h2]
    by_cases hv : v = u
    · subst hv
      simp [h]
    · rw [List.mem_append]
      simp only [List.mem_singleton, hv, or_false]
      exact List.mem_erase_of_ne hv
  · rw [toggleMember_of_not_mem h]
    have h2 : u ∈ l ++ [u] := by simp
    rw [toggleMember_of_mem h2]
    rw [List.erase_append_right [u] h]
    simp

theorem toggleMember_nodup {l : List String} (hn : l.Nodup) (u : String) :
    (toggleMember l u).Nodup := by
  by_cases h : u ∈ l
  · rw [toggleMember_of_mem h]
    exact hn.erase u
  · rw [toggleMember_of_not_mem h]
    simp [List.nodup_append, hn, h]

/-! ### Helper lemmas about the story store -/

theorem mem_saveStory {db : List Story} {s t : Story}
    (h : t ∈ saveStory db s) : t = s ∨ t ∈ db := by
  rcases List.mem_map.mp h with ⟨x, hx, hxt⟩
  by_cases hid : x.id == s.id
  · simp only [hid, if_true] at hxt
    exact Or.inl hxt.symm
  · simp only [hid] at hxt
    simp only [Bool.false_eq_true, if_false] at hxt
    exact Or.inr (hxt ▸ hx)

theorem mem_saveStory_of_ne {db : List Story} {s t : Story} (ht : t ∈ db)
    (hne : t.id ≠ s.id) : t ∈ saveStory db s :=
  List.mem_map.mpr ⟨t, ht, by simp [hne]⟩

theorem findStory_id {db : List Story} {id : Nat} {s : Story}
    (h : findStory db id = some s) : s.id = id := by
  unfold findStory at h
  simpa using List.find?_some h

theorem findStory_mem {db : List Story} {id : Nat} {s : Story}
    (h : findStory db id = some s) : s ∈ db := by
  unfold findStory at h
  exact List.mem_of_find?_eq_some h

/-- The no-duplicate invariant of the likes and bookmarks sets, over a whole
story collection. -/
def likesBookmarksNodup (db : List Story) : Prop :=
  ∀ s ∈ db, s.likes.Nodup ∧ s.bookmarks.Nodup

theorem likesBookmarksNodup_saveStory {db : List Story} {s : Story}
    (h : likesBookmarksNodup db) (hs : s.likes.Nodup ∧ s.bookmarks.Nodup) :
    likesBookmarksNodup (saveStory db s) := by
  intro t ht
  rcases mem_saveStory ht with rfl | ht'
  · exact hs
  · exact h t ht'

/-! ### Claim theorems -/

/-- Claim C1: for every story (with the documented set reading of likes and
bookmarks, i.e. no duplicate identity-ids) and every caller, toggle-like flips
the caller's membership in the likes set — present becomes absent and absent
becomes present, other ids untouched — and toggling twice restores the
original membership; the same holds for toggle-bookmark on the bookmarks
set. -/
theorem toggle_like_bookmark_involution (s : Story) (u v : String)
    (hl : s.likes.Nodup) (hb : s.bookmarks.Nodup) :
    (u ∈ (likeStory s u).likes ↔ u ∉ s.likes) ∧
    (v ≠ u → (v ∈ (likeStory s u).likes ↔ v ∈ s.likes)) ∧
    (v ∈ (likeStory (likeStory s u) u).likes ↔ v ∈ s.likes) ∧
    (u ∈ (bookmarkStory s u).bookmarks ↔ u ∉ s.bookmarks) ∧
    (v ≠ u → (v ∈ (bookmarkStory s u).bookmarks ↔ v ∈ s.bookmarks)) ∧
    (v ∈ (bookmarkStory (bookmarkStory s u) u).bookmarks ↔ v ∈ s.bookmarks) :=
  ⟨self_mem_toggleMember_iff hl u,
   fun hv => ne_mem_toggleMember_iff hv,
   toggleMember_toggleMember_mem hl u v,
   self_mem_toggleMember_iff hb u,
   fun hv => ne_mem_toggleMember_iff hv,
   toggleMember_toggleMember_mem hb u v⟩

/-- Witness for C1: concrete story, caller `"u2"` not yet in the likes set. -/
theorem toggle_like_bookmark_involution_witness :
    storyEx.likes.Nodup ∧ storyEx.bookmarks.Nodup ∧ ("u2" : String) ≠ "u1" ∧
    ("u2" ∈ (likeStory storyEx "u2").likes ↔ "u2" ∉ storyEx.likes) ∧
    ("u1" ∈ (likeStory (likeStory storyEx "u1") "u1").likes ↔
      "u1" ∈ storyEx.likes) :=
  ⟨by decide, by decide, by decide,
   (toggle_like_bookmark_involution storyEx "u2" "u2" (by decide)
     (by decide)).1,
   (toggle_like_bookmark_involution storyEx "u1" "u1" (by decide)
     (by decide)).2.2.1⟩

/-- Claim C2: every story-mutating operation of the backend — in particular
toggle-like and toggle-bookmark — preserves the invariant that no story's
likes or bookmarks set contains duplicate identity-ids. -/
theorem operations_preserve_nodup
    (db : List Story) (dbu : DB) (caller : User)
    (id storyId commentId callerId newId now : Nat)
    (u name body ti co ca cid : String)
    (t c cat mi ma mv : Option String)
    (h : likesBookmarksNodup db) (hu : likesBookmarksNodup dbu.stories) :
    likesBookmarksNodup (likeHandler db id u).2 ∧
    likesBookmarksNodup (bookmarkHandler db id u).2 ∧
    likesBookmarksNodup
      (createStoryHandler db caller ti co ca mi ma mv newId now).2 ∧
    likesBookmarksNodup
      (updateStoryHandler db id callerId t c cat mi ma mv now).2 ∧
    likesBookmarksNodup (deleteStoryHandler db id callerId).2 ∧
    likesBookmarksNodup
      (addCommentHandler db id callerId name body newId now).2 ∧
    likesBookmarksNodup (deleteCommentHandler db storyId commentId callerId).2 ∧
    likesBookmarksNodup (deleteUserHandler dbu cid caller).2.stories := by
  refine ⟨?_, ?_, ?_, ?_, ?_, ?_, ?_, ?_⟩
  · cases hf : findStory db id with
    | none => simpa [likeHandler, hf] using h
    | some s =>
      have hs := h s (findStory_mem hf)
      simp only [likeHandler, hf]
      exact likesBookmarksNodup_saveStory h ⟨toggleMember_nodup hs.1 u, hs.2⟩
  · cases hf : findStory db id with
    | none => simpa [bookmarkHandler, hf] using h
    | some s =>
      have hs := h s (findStory_mem hf)
      simp only [bookmarkHandler, hf]
      exact likesBookmarksNodup_saveStory h ⟨hs.1, toggleMember_nodup hs.2 u⟩
  · by_cases hreq : ti = "" ∨ co = "" ∨ ca = ""
    · simpa [createStoryHandler, hreq] using h
    · simp only [createStoryHandler, if_neg hreq]
      intro s hs
      rcases List.mem_append.mp hs with hs | hs
      · exact h s hs
      · rcases List.mem_singleton.mp hs with rfl
        exact ⟨List.nodup_nil, List.nodup_nil⟩
  · cases hf : findStory db id with
    | none => simpa [updateStoryHandler, hf] using h
    | some s =>
      have hs := h s (findStory_mem hf)
      simp only [updateStoryHandler, hf]
      split
      · exact likesBookmarksNodup_saveStory h ⟨hs.1, hs.2⟩
      · exact h
  · cases hf : findStory db id with
    | none => simpa [deleteStoryHandler, hf] using h
    | some s =>
      simp only [deleteStoryHandler, hf]
      split
      · intro x hx
        exact h x (List.mem_of_mem_filter hx)
      · exact h
  · by_cases hbody : body = ""
    · simpa [addCommentHandler, hbody] using h
    · cases hf : findStory db id with
      | none => simpa [addCommentHandler, hbody, hf] using h
      | some s =>
        have hs := h s (findStory_mem hf)
        simp only [addCommentHandler, if_neg hbody, hf]
        exact likesBookmarksNodup_saveStory h ⟨hs.1, hs.2⟩
  · cases hf : findStory db storyId with
    | none => simpa [deleteCommentHandler, hf] using h
    | some s =>
      cases hc : s.comments.find? (fun c0 => c0.id == commentId) with
      | none => simpa [deleteCommentHandler, hf, hc] using h
      | some cm =>
        have hs := h s (findStory_mem hf)
        simp only [deleteCommentHandler, hf, hc]
        split
        · exact likesBookmarksNodup_saveStory h ⟨hs.1, hs.2⟩
        · exact h
  · simp only [deleteUserHandler]
    split
    · cases hfu : dbu.users.find? (fun u0 => u0.clerkId == cid) with
      | none => simpa [hfu] using hu
      | some usr =>
        simp only [hfu]
        intro s hs
        rcases List.mem_map.mp hs with ⟨x, hx, hxs⟩
        have hx2 := hu x (List.mem_of_mem_filter hx)
        by_cases hm : storyMentionsUser cid usr.id x
        · simp only [hm, if_true] at hxs
          rw [← hxs]
          exact ⟨hx2.1.filter _, hx2.2.filter _⟩
        · simp only [hm] at hxs
          simp only [Bool.false_eq_true, if_false] at hxs
          rw [← hxs]
          exact hx2
    · exact hu

/-- Witness for C2 at a concrete store. -/
theorem operations_preserve_nodup_witness :
    likesBookmarksNodup dbEx ∧
    likesBookmarksNodup (likeHandler dbEx 1 "u2").2 := by
  have h : likesBookmarksNodup dbEx := by
    intro s hs
    simp only [dbEx, List.mem_singleton] at hs
    subst hs
    exact ⟨by decide, by decide⟩
  have hu : likesBookmarksNodup dbuEx.stories := by
    intro s hs
    simp only [dbuEx, List.mem_singleton] at hs
    subst hs
    exact ⟨by decide, by decide⟩
  exact ⟨h, (operations_preserve_nodup dbEx dbuEx userEx 1 1 3 7 2 11 "u2"
    "n" "b" "T" "C" "M" "u1" none none none none none none h hu).1⟩

/-- A concrete story of the secondary route set, older. -/
def sbOld : StoryB :=
  { title := "a", content := "b", imageUrl := "i", category := "General",
    author := "Unknown", createdAt := 0 }

/-- A concrete story of the secondary route set, newer, stored after the
older one. -/
def sbNew : StoryB :=
  { title := "c", content := "d", imageUrl := "j", category := "General",
    author := "Unknown", createdAt := 1 }

/-- Claim C3 counterexample: on the secondary route set, a store holding an
older story before a newer one is returned as stored — oldest first — so the
list-all output is not ordered by creation timestamp descending. -/
theorem secondary_list_not_sorted_desc_cex :
    ¬ (getAllStoriesSecondary [sbOld, sbNew]).Pairwise
      (fun a b => b.createdAt ≤ a.createdAt) := by
  decide

/-- Claim C3 (amended): the main server's `GET /api/stories` returns the
stories ordered by creation timestamp descending; the secondary route set's
`GET /` returns the stored collection in store order, without sorting. -/
theorem list_all_sorted_main (users : List User) (stories : List Story) :
    (getAllStoriesHandler users stories).Pairwise
      (fun a b => b.createdAt ≤ a.createdAt) ∧
    ∀ dbb : List StoryB, getAllStoriesSecondary dbb = dbb := by
  constructor
  · haveI : IsTrans Story (fun a b => b.createdAt ≤ a.createdAt) :=
      ⟨fun _ _ _ h1 h2 => Nat.le_trans h2 h1⟩
    haveI : IsTotal Story (fun a b => b.createdAt ≤ a.createdAt) :=
      ⟨fun a b => Nat.le_total b.createdAt a.createdAt⟩
    have hsorted := List.sorted_insertionSort
      (fun a b : Story => b.createdAt ≤ a.createdAt) stories
    unfold getAllStoriesHandler
    rw [List.pairwise_map]
    exact hsorted.imp (fun hab => hab)
  · intro dbb
    rfl

/-- A concrete provider profile with username and both name parts absent. -/
def clerkUserEx : ClerkUser :=
  { id := "abc123", username := none, firstName := none, lastName := none,
    emailAddress := none, imageUrl := none }

/-- Claim C4 counterexample: with the provider's username, first name and last
name all absent, the created user's display name is the JavaScript rendering
"null null" of the concatenation, not the generated placeholder
"user_abc123": the placeholder branch is dead code. -/
theorem sync_placeholder_dead_cex :
    (mkSyncedUser clerkUserEx 1 0).username = "null null" ∧
    (mkSyncedUser clerkUserEx 1 0).username ≠ "user_" ++ clerkUserEx.id := by
  constructor
  · decide
  · decide

/-- The `firstName + ' ' + lastName` concatenation always contains the space,
so it is never the empty string. -/
theorem concat_name_nonempty (f l : Option String) :
    jsToString f ++ " " ++ jsToString l ≠ "" := by
  intro hcontra
  have hlen := congrArg String.length hcontra
  have hsp : (" " : String).length = 1 := rfl
  have hemp : ("" : String).length = 0 := rfl
  simp only [String.length_append, hsp, hemp] at hlen
  omega

/-- Claim C4 (amended): when Identity Sync creates a local user, the display
name is the provider's username when present and non-empty; otherwise it is
the JavaScript concatenation `firstName + " " + lastName` with missing parts
rendered as "null". That concatenation always contains a space, hence is
non-empty, so the generated placeholder `user_<id>` branch is unreachable. -/
theorem sync_username_fallback (c : ClerkUser) (newId now : Nat) :
    (c.username.getD "" ≠ "" →
      (mkSyncedUser c newId now).username = c.username.getD "") ∧
    (c.username.getD "" = "" →
      (mkSyncedUser c newId now).username =
        jsToString c.firstName ++ " " ++ jsToString c.lastName) ∧
    jsToString c.firstName ++ " " ++ jsToString c.lastName ≠ "" := by
  refine ⟨?_, ?_, concat_name_nonempty c.firstName c.lastName⟩
  · intro hne
    simp [mkSyncedUser, deriveUsername, jsOrOpt, jsOrStr, jsTruthy, hne]
  · intro heq
    simp [mkSyncedUser, deriveUsername, jsOrOpt, jsOrStr, jsTruthy, heq,
      concat_name_nonempty c.firstName c.lastName]

/-- A concrete provider profile that does carry a username. -/
def clerkUserEx2 : ClerkUser :=
  { id := "z", username := some "nem", firstName := none,
    lastName := none, emailAddress := none, imageUrl := none }

/-- Witness for C4 at concrete provider profiles: one with a username, one
with nothing. -/
theorem sync_username_fallback_witness :
    (clerkUserEx2.username.getD "" ≠ "") ∧
    (mkSyncedUser clerkUserEx2 2 3).username = clerkUserEx2.username.getD "" ∧
    (mkSyncedUser clerkUserEx 1 0).username =
      jsToString clerkUserEx.firstName ++ " " ++
        jsToString clerkUserEx.lastName :=
  ⟨by decide,
   (sync_username_fallback clerkUserEx2 2 3).1 (by decide),
   (sync_username_fallback clerkUserEx 1 0).2.1 (by decide)⟩

/-! ### Helper lemmas about the OTP store -/

theorem otpGet_otpSet (m : OtpStore) (email : String) (e : OtpEntry) :
    otpGet (otpSet m email e) email = some e := by
  simp [otpGet, otpSet, List.lookup]

theorem otpGet_otpDelete (m : OtpStore) (email : String) :
    otpGet (otpDelete m email) email = none := by
  induction m with
  | nil => rfl
  | cons p rest ih =>
    by_cases h : p.1 = email
    · simpa [otpDelete, otpGet, List.filter_cons, h] using ih
    · have hbeq : (email == p.1) = false := beq_eq_false_iff_ne.mpr (Ne.symm h)
      simpa [otpDelete, otpGet, List.filter_cons, h, List.lookup,
        hbeq] using ih

theorem verifyOtp_success_store {m : OtpStore} {email otp : String}
    {now : Nat} (h : (verifyOtp m email otp now).1 = VerifyResult.success) :
    (verifyOtp m email otp now).2 = otpDelete m email := by
  unfold verifyOtp at h ⊢
  cases hget : otpGet m email with
  | none =>
    rw [hget] at h
    simp at h
  | some e =>
    rw [hget] at h
    by_cases hexp : e.expires < now
    · simp [hexp] at h
    · by_cases hcode : e.otp = otp
      · simp [hexp, hcode]
      · simp [hexp, hcode] at h

/-- Claim C5: after send-otp stores a code for an email, verify succeeds iff
the submitted code equals the most recently stored code and the current time
does not exceed the 5-minute expiry; a successful verify deletes the entry, so
an immediately repeated verify for the same email fails with no-OTP-found. -/
theorem otp_verify_iff (m : OtpStore) (email code submitted s2 : String)
    (t0 t t2 : Nat) :
    ((verifyOtp (sendOtp m email code t0) email submitted t).1 =
        VerifyResult.success ↔
      (submitted = code ∧ t ≤ t0 + 5 * 60 * 1000)) ∧
    ((verifyOtp (sendOtp m email code t0) email submitted t).1 =
        VerifyResult.success →
      (verifyOtp (verifyOtp (sendOtp m email code t0) email submitted t).2
          email s2 t2).1 = VerifyResult.noOtpFound) := by
  have hget : otpGet (sendOtp m email code t0) email =
      some { otp := code, expires := t0 + 5 * 60 * 1000 } :=
    otpGet_otpSet m email _
  constructor
  · simp only [verifyOtp, hget]
    by_cases hexp : t0 + 5 * 60 * 1000 < t
    · have hnle : ¬ (t ≤ t0 + 5 * 60 * 1000) := by omega
      simp [hexp, hnle]
    · by_cases hcode : code == submitted
      · have hc := eq_of_beq hcode
        have hle : t ≤ t0 + 5 * 60 * 1000 := by omega
        simp [hexp, hcode, hc.symm, hle]
      · have hne : submitted ≠ code := by
          intro hcontra
          exact hcode (by simp [hcontra])
        simp [hexp, hcode, hne]
  · intro hsucc
    rw [verifyOtp_success_store hsucc]
    simp [verifyOtp, otpGet_otpDelete]

/-- Witness for C5 at a concrete send/verify/verify sequence. -/
theorem otp_verify_iff_witness :
    (("123456" : String) = "123456" ∧ (10 : Nat) ≤ 0 + 5 * 60 * 1000) ∧
    (verifyOtp (sendOtp [] "a@b.c" "123456" 0) "a@b.c" "123456" 10).1 =
      VerifyResult.success ∧
    (verifyOtp
      (verifyOtp (sendOtp [] "a@b.c" "123456" 0) "a@b.c" "123456" 10).2
      "a@b.c" "123456" 11).1 = VerifyResult.noOtpFound := by
  have h := otp_verify_iff [] "a@b.c" "123456" "123456" "123456" 0 10 11
  have hs : (verifyOtp (sendOtp [] "a@b.c" "123456" 0) "a@b.c"
      "123456" 10).1 = VerifyResult.success := h.1.mpr ⟨rfl, by omega⟩
  exact ⟨⟨rfl, by omega⟩, hs, h.2 hs⟩

/-- Claim C6: the effect of verify on the stored entry: absent entry — fail
with no-OTP-found and the store unchanged; expired entry — delete it and fail
as expired; matching code — delete it and succeed; mismatched code — fail as
invalid with the entry kept unchanged, so a retry within the window remains
possible. -/
theorem otp_verify_store_effect (m : OtpStore) (email submitted : String)
    (now : Nat) :
    (otpGet m email = none →
      verifyOtp m email submitted now = (VerifyResult.noOtpFound, m)) ∧
    (∀ e, otpGet m email = some e → e.expires < now →
      verifyOtp m email submitted now =
        (VerifyResult.expired, otpDelete m email)) ∧
    (∀ e, otpGet m email = some e → ¬ e.expires < now → e.otp = submitted →
      verifyOtp m email submitted now =
        (VerifyResult.success, otpDelete m email)) ∧
    (∀ e, otpGet m email = some e → ¬ e.expires < now → e.otp ≠ submitted →
      verifyOtp m email submitted now = (VerifyResult.invalidOtp, m)) := by
  refine ⟨?_, ?_, ?_, ?_⟩
  · intro h
    simp [verifyOtp, h]
  · intro e he hexp
    simp [verifyOtp, he, hexp]
  · intro e he hexp hcode
    simp [verifyOtp, he, hexp, hcode]
  · intro e he hexp hcode
    simp [verifyOtp, he, hexp, hcode]

/-- A concrete OTP store used by witnesses. -/
def otpStoreEx : OtpStore := [("a@b.c", { otp := "123456", expires := 300000 })]

/-- Witness for C6 at a concrete store, one instance per case. -/
theorem otp_verify_store_effect_witness :
    verifyOtp [] "a@b.c" "123456" 0 = (VerifyResult.noOtpFound, []) ∧
    verifyOtp otpStoreEx "a@b.c" "123456" 300001 =
      (VerifyResult.expired, otpDelete otpStoreEx "a@b.c") ∧
    verifyOtp otpStoreEx "a@b.c" "123456" 10 =
      (VerifyResult.success, otpDelete otpStoreEx "a@b.c") ∧
    verifyOtp otpStoreEx "a@b.c" "999999" 10 =
      (VerifyResult.invalidOtp, otpStoreEx) :=
  ⟨(otp_verify_store_effect [] "a@b.c" "123456" 0).1 (by decide),
   (otp_verify_store_effect otpStoreEx "a@b.c" "123456" 300001).2.1
     { otp := "123456", expires := 300000 } (by decide) (by decide),
   (otp_verify_store_effect otpStoreEx "a@b.c" "123456" 10).2.2.1
     { otp := "123456", expires := 300000 } (by decide) (by decide) (by decide),
   (otp_verify_store_effect otpStoreEx "a@b.c" "999999" 10).2.2.2
     { otp := "123456", expires := 300000 } (by decide) (by decide) (by decide)⟩

/-- Claim C7: update and delete of a story succeed only for the owning
author: a story id that does not resolve yields not-found with the store
unchanged, any other authenticated caller gets forbidden with the store
unchanged, and the owner's calls succeed. -/
theorem story_update_delete_owner_only (db : List Story) (id callerId : Nat)
    (t c cat mi ma mv : Option String) (now : Nat) :
    (findStory db id = none →
      updateStoryHandler db id callerId t c cat mi ma mv now =
        (Resp.notFound, db) ∧
      deleteStoryHandler db id callerId = (Resp.notFound, db)) ∧
    (∀ s, findStory db id = some s → s.authorId ≠ callerId →
      updateStoryHandler db id callerId t c cat mi ma mv now =
        (Resp.forbidden, db) ∧
      deleteStoryHandler db id callerId = (Resp.forbidden, db)) ∧
    (∀ s, findStory db id = some s → s.authorId = callerId →
      (updateStoryHandler db id callerId t c cat mi ma mv now).1 = Resp.ok ∧
      (deleteStoryHandler db id callerId).1 = Resp.ok) := by
  refine ⟨?_, ?_, ?_⟩
  · intro h
    constructor
    · simp [updateStoryHandler, h]
    · simp [deleteStoryHandler, h]
  · intro s hs hne
    constructor
    · simp [updateStoryHandler, hs, hne]
    · simp [deleteStoryHandler, hs, hne]
  · intro s hs heq
    constructor
    · simp [updateStoryHandler, hs, heq]
    · simp [deleteStoryHandler, hs, heq]

/-- Witness for C7 at a concrete store: missing id, non-owner caller, owner
caller. -/
theorem story_update_delete_owner_only_witness :
    (updateStoryHandler dbEx 99 7 none none none none none none 20 =
      (Resp.notFound, dbEx)) ∧
    (updateStoryHandler dbEx 1 8 none none none none none none 20 =
      (Resp.forbidden, dbEx)) ∧
    (deleteStoryHandler dbEx 1 7).1 = Resp.ok :=
  ⟨((story_update_delete_owner_only dbEx 99 7 none none none none none none
      20).1 (by decide)).1,
   ((story_update_delete_owner_only dbEx 1 8 none none none none none none
      20).2.1 storyEx (by decide) (by decide)).1,
   ((story_update_delete_owner_only dbEx 1 7 none none none none none none
      20).2.2 storyEx (by decide) (by decide)).2⟩

/-- Under unique comment ids, the `pull` of the found comment (a filter on the
comment id) removes exactly that comment. -/
theorem filter_ne_id_eq_erase {cid : Nat} (l : List Comment) :
    ∀ cm : Comment, l.find? (fun c => c.id == cid) = some cm →
      (l.map (fun c => c.id)).Nodup →
      l.filter (fun c => ¬ c.id == cid) = l.erase cm := by
  induction l with
  | nil =>
    intro cm h _
    simp at h
  | cons a rest ih =>
    intro cm h hn
    simp only [List.map_cons, List.nodup_cons] at hn
    by_cases ha : (a.id == cid) = true
    · rw [List.find?_cons_of_pos (p := fun c : Comment => c.id == cid) _ ha] at h
      injection h with h
      subst h
      rw [List.filter_cons_of_neg (by simp [ha]), List.erase_cons_head]
      have hall : ∀ c ∈ rest, c.id ≠ cid := by
        intro c hc hcontra
        apply hn.1
        rw [eq_of_beq ha]
        rw [← hcontra]
        exact List.mem_map_of_mem _ hc
      apply List.filter_eq_self.mpr
      intro c hc
      simpa using hall c hc
    · rw [List.find?_cons_of_neg (p := fun c : Comment => c.id == cid) _ ha] at h
      have hcmid : cm.id = cid := by
        have := List.find?_some h
        simpa using this
      have hacm : (a == cm) = false := by
        apply beq_eq_false_iff_ne.mpr
        intro hcontra
        apply ha
        rw [hcontra, hcmid]
        exact beq_self_eq_true cid
      rw [List.filter_cons_of_pos (by simpa using ha),
        List.erase_cons_tail (by simp [hacm])]
      rw [ih cm h hn.2]

/-- Claim C8: delete-comment yields not-found when the story or the comment
id does not resolve, forbidden when the caller's local user id differs from
the comment's stored author user id (local user ids are compared, not
identity-provider ids), and otherwise removes exactly that comment from the
story's comment list. -/
theorem delete_comment_spec (db : List Story)
    (storyId commentId callerId : Nat) :
    (findStory db storyId = none →
      deleteCommentHandler db storyId commentId callerId =
        (Resp.notFound, db)) ∧
    (∀ s, findStory db storyId = some s →
      s.comments.find? (fun c => c.id == commentId) = none →
      deleteCommentHandler db storyId commentId callerId =
        (Resp.notFound, db)) ∧
    (∀ s cm, findStory db storyId = some s →
      s.comments.find? (fun c => c.id == commentId) = some cm →
      cm.userId ≠ callerId →
      deleteCommentHandler db storyId commentId callerId =
        (Resp.forbidden, db)) ∧
    (∀ s cm, findStory db storyId = some s →
      s.comments.find? (fun c => c.id == commentId) = some cm →
      cm.userId = callerId →
      (s.comments.map (fun c => c.id)).Nodup →
      deleteCommentHandler db storyId commentId callerId =
        (Resp.ok, saveStory db { s with comments := s.comments.erase cm })) := by
  refine ⟨?_, ?_, ?_, ?_⟩
  · intro h
    simp [deleteCommentHandler, h]
  · intro s hs hc
    simp [deleteCommentHandler, hs, hc]
  · intro s cm hs hc hne
    simp [deleteCommentHandler, hs, hc, hne]
  · intro s cm hs hc heq hn
    rw [← filter_ne_id_eq_erase s.comments cm hc hn]
    simp [deleteCommentHandler, hs, hc, heq]

/-- Witness for C8 at a concrete store: the author (local id 7) deletes
comment 3 from story 1. -/
theorem delete_comment_spec_witness :
    storyEx.comments.find? (fun c => c.id == 3) =
      some { id := 3, userId := 7, username := "nemis", content := "hi",
             createdAt := 5 } ∧
    deleteCommentHandler dbEx 1 3 8 = (Resp.forbidden, dbEx) ∧
    (deleteCommentHandler dbEx 1 3 7).1 = Resp.ok := by
  refine ⟨by decide, ?_, ?_⟩
  · exact (delete_comment_spec dbEx 1 3 8).2.2.1 storyEx
      { id := 3, userId := 7, username := "nemis", content := "hi",
        createdAt := 5 } (by decide) (by decide) (by decide)
  · rw [((delete_comment_spec dbEx 1 3 7).2.2.2 storyEx
      { id := 3, userId := 7, username := "nemis", content := "hi",
        createdAt := 5 } (by decide) (by decide) (by decide) (by decide))]

/-- With unique identity-ids across the user collection,
`findOneAndDelete` (removal of the first match) leaves no user carrying the
deleted identity-id. -/
theorem eraseP_clerkId_ne {cid : String} (l : List User)
    (hn : (l.map (fun x => x.clerkId)).Nodup) :
    ∀ v ∈ l.eraseP (fun x => x.clerkId == cid), v.clerkId ≠ cid := by
  induction l with
  | nil =>
    intro v hv
    simp at hv
  | cons a rest ih =>
    simp only [List.map_cons, List.nodup_cons] at hn
    intro v hv
    by_cases ha : (a.clerkId == cid) = true
    · rw [List.eraseP_cons_of_pos (p := fun x : User => x.clerkId == cid)
        ha] at hv
      intro hvc
      apply hn.1
      have hm : v.clerkId ∈ rest.map (fun x => x.clerkId) :=
        List.mem_map_of_mem _ hv
      rw [hvc] at hm
      rw [eq_of_beq ha]
      exact hm
    · rw [List.eraseP_cons_of_neg (p := fun x : User => x.clerkId == cid)
        ha] at hv
      rcases List.mem_cons.mp hv with rfl | hv2
      · intro hvc
        exact ha (by rw [hvc]; exact beq_self_eq_true cid)
      · exact ih hn.2 v hv2

/-- Claim C9: after a successful self-delete of a user, no story authored by
that user remains, no remaining story's likes or bookmarks set contains the
user's identity-id, no remaining story has a comment whose author user id is
the user's local id, and the local user document is gone (identity-ids are
unique across the user collection, as the schema declares). -/
theorem delete_user_cascade (db : DB) (cid : String) (caller u : User)
    (hcaller : caller.clerkId = cid)
    (hfind : db.users.find? (fun x => x.clerkId == cid) = some u)
    (hkeys : (db.users.map (fun x => x.clerkId)).Nodup) :
    (deleteUserHandler db cid caller).1 = Resp.ok ∧
    (∀ s ∈ (deleteUserHandler db cid caller).2.stories,
      s.authorId ≠ u.id ∧ cid ∉ s.likes ∧ cid ∉ s.bookmarks ∧
      ∀ c ∈ s.comments, c.userId ≠ u.id) ∧
    (∀ v ∈ (deleteUserHandler db cid caller).2.users, v.clerkId ≠ cid) := by
  have hbc : (caller.clerkId == cid) = true := beq_iff_eq.mpr hcaller
  simp only [deleteUserHandler, hbc, if_true, hfind]
  refine ⟨trivial, ?_, ?_⟩
  · intro s hs
    rcases List.mem_map.mp hs with ⟨x, hx, hxs⟩
    have hxp := List.of_mem_filter hx
    simp only [decide_not, Bool.not_eq_eq_eq_not, Bool.not_true,
      decide_eq_false_iff_not] at hxp
    have hxne : x.authorId ≠ u.id := by
      intro hcontra
      exact hxp (by rw [hcontra]; exact beq_self_eq_true u.id)
    by_cases hm : storyMentionsUser cid u.id x
    · rw [if_pos hm] at hxs
      rw [← hxs]
      refine ⟨hxne, ?_, ?_, ?_⟩
      · intro hmem
        have := List.of_mem_filter hmem
        simp at this
      · intro hmem
        have := List.of_mem_filter hmem
        simp at this
      · intro c hc hcontra
        have := List.of_mem_filter hc
        rw [hcontra] at this
        simp at this
    · rw [if_neg hm] at hxs
      rw [← hxs]
      simp only [storyMentionsUser, Bool.or_eq_true, List.any_eq_true,
        List.contains, List.elem_eq_mem, decide_eq_true_eq, beq_iff_eq,
        not_or, not_exists, not_and] at hm
      exact ⟨hxne, hm.1.1, hm.1.2, hm.2⟩
  · exact eraseP_clerkId_ne db.users hkeys

/-- Witness for C9 at a concrete store: the author of the concrete story
deletes their own profile. -/
theorem delete_user_cascade_witness :
    userEx.clerkId = "u1" ∧
    dbuEx.users.find? (fun x => x.clerkId == "u1") = some userEx ∧
    (deleteUserHandler dbuEx "u1" userEx).1 = Resp.ok :=
  ⟨by decide, by decide,
   (delete_user_cascade dbuEx "u1" userEx userEx (by decide) (by decide)
     (by decide)).1⟩

/-- Claim C10: toggle-like modifies only the target story's likes field —
every other stored field of that story and every other story is left
unchanged — and symmetrically toggle-bookmark modifies only the bookmarks
field. -/
theorem toggle_frame (db : List Story) (id : Nat) (u : String) (s : Story)
    (h : findStory db id = some s) :
    ((likeHandler db id u).1 = Resp.ok ∧
     (likeHandler db id u).2 = saveStory db (likeStory s u) ∧
     (likeStory s u).likes = toggleMember s.likes u ∧
     (likeStory s u).id = s.id ∧
     (likeStory s u).title = s.title ∧
     (likeStory s u).content = s.content ∧
     (likeStory s u).category = s.category ∧
     (likeStory s u).authorId = s.authorId ∧
     (likeStory s u).author = s.author ∧
     (likeStory s u).authorImage = s.authorImage ∧
     (likeStory s u).imageUrl = s.imageUrl ∧
     (likeStory s u).audioUrl = s.audioUrl ∧
     (likeStory s u).videoUrl = s.videoUrl ∧
     (likeStory s u).bookmarks = s.bookmarks ∧
     (likeStory s u).comments = s.comments ∧
     (likeStory s u).createdAt = s.createdAt ∧
     (likeStory s u).updatedAt = s.updatedAt ∧
     (∀ t ∈ db, t.id ≠ id → t ∈ (likeHandler db id u).2) ∧
     (∀ t ∈ (likeHandler db id u).2, t.id ≠ id → t ∈ db)) ∧
    ((bookmarkHandler db id u).1 = Resp.ok ∧
     (bookmarkHandler db id u).2 = saveStory db (bookmarkStory s u) ∧
     (bookmarkStory s u).bookmarks = toggleMember s.bookmarks u ∧
     (bookmarkStory s u).id = s.id ∧
     (bookmarkStory s u).title = s.title ∧
     (bookmarkStory s u).content = s.content ∧
     (bookmarkStory s u).category = s.category ∧
     (bookmarkStory s u).authorId = s.authorId ∧
     (bookmarkStory s u).author = s.author ∧
     (bookmarkStory s u).authorImage = s.authorImage ∧
     (bookmarkStory s u).imageUrl = s.imageUrl ∧
     (bookmarkStory s u).audioUrl = s.audioUrl ∧
     (bookmarkStory s u).videoUrl = s.videoUrl ∧
     (bookmarkStory s u).likes = s.likes ∧
     (bookmarkStory s u).comments = s.comments ∧
     (bookmarkStory s u).createdAt = s.createdAt ∧
     (bookmarkStory s u).updatedAt = s.updatedAt ∧
     (∀ t ∈ db, t.id ≠ id → t ∈ (bookmarkHandler db id u).2) ∧
     (∀ t ∈ (bookmarkHandler db id u).2, t.id ≠ id → t ∈ db)) := by
  have hid : s.id = id := findStory_id h
  constructor
  · refine ⟨?_, ?_, rfl, rfl, rfl, rfl, rfl, rfl, rfl, rfl, rfl, rfl, rfl,
      rfl, rfl, rfl, rfl, ?_, ?_⟩
    · simp [likeHandler, h]
    · simp [likeHandler, h]
    · intro t ht htne
      simp only [likeHandler, h]
      exact mem_saveStory_of_ne ht (by
        show t.id ≠ (likeStory s u).id
        rw [show (likeStory s u).id = s.id from rfl, hid]
        exact htne)
    · intro t ht htne
      simp only [likeHandler, h] at ht
      rcases mem_saveStory ht with rfl | ht2
      · exact absurd hid htne
      · exact ht2
  · refine ⟨?_, ?_, rfl, rfl, rfl, rfl, rfl, rfl, rfl, rfl, rfl, rfl, rfl,
      rfl, rfl, rfl, rfl, ?_, ?_⟩
    · simp [bookmarkHandler, h]
    · simp [bookmarkHandler, h]
    · intro t ht htne
      simp only [bookmarkHandler, h]
      exact mem_saveStory_of_ne ht (by
        show t.id ≠ (bookmarkStory s u).id
        rw [show (bookmarkStory s u).id = s.id from rfl, hid]
        exact htne)
    · intro t ht htne
      simp only [bookmarkHandler, h] at ht
      rcases mem_saveStory ht with rfl | ht2
      · exact absurd hid htne
      · exact ht2

/-- Witness for C10 at a concrete store. -/
theorem toggle_frame_witness :
    findStory dbEx 1 = some storyEx ∧
    (likeHandler dbEx 1 "u2").1 = Resp.ok ∧
    (likeHandler dbEx 1 "u2").2 = saveStory dbEx (likeStory storyEx "u2") ∧
    (bookmarkHandler dbEx 1 "u2").1 = Resp.ok :=
  ⟨by decide,
   (toggle_frame dbEx 1 "u2" storyEx (by decide)).1.1,
   (toggle_frame dbEx 1 "u2" storyEx (by decide)).1.2.1,
   (toggle_frame dbEx 1 "u2" storyEx (by decide)).2.1⟩

end DevTales
